import Mathlib

/-!
A shallow embedding of the senseboxmap application core (`src/src/App.jsx`):
the device catalog, the popup's history projection (`SenseboxPopup`), the
chart coordinate computation (`LineChart`), and the refresh/merge state
machine of `App`'s `fetchData` effect.

Conventions of the embedding:
- JS numbers are modelled as `ℚ` (the spec and the claims use exact
  decimal values, and every arithmetic operation involved — subtraction,
  division, min/max — is exact on the inputs considered).
- `readings.slice(-w)` for the positive window sizes used by the code is
  `List.drop (length - w)`.
- React state (`boxes`, `loading`, `error`) is an explicit `AppState`
  record; one invocation of `fetchData` is a pure transition on it.
- `Promise.all` over the per-device fetches is modelled by giving every
  device an outcome and a settlement order: `Promise.all` rejects with the
  reason of the first promise (in settlement order) that rejects, and it
  resolves with the results in device order when none rejects.
- `Math.random()`-derived strings (the chart gradient id suffix) are an
  explicit input parameter of the render function.
-/

/-- One timestamped sample, as in the JSON body
`{ts, temperature, humidity, illu, light}` (§6 of the data contract,
consumed untouched by `SenseboxPopup`). -/
structure Reading where
  ts : String
  temperature : ℚ
  humidity : ℚ
  illu : ℚ
  light : ℚ
deriving DecidableEq, Repr

/-- One catalog entry of the `SENSEBOXES` constant in `App.jsx`:
`{ id, name, position, file }`. -/
structure Sensebox where
  id : ℕ
  name : String
  position : ℚ × ℚ
  file : String
deriving DecidableEq, Repr

/-- The static device catalog `SENSEBOXES` from `App.jsx` (positions as the
exact decimal literals of the source). -/
def SENSEBOXES : List Sensebox :=
  [ ⟨0, "SenseBox 0", (51.25249146683472, 7.128714956019335), "sensebox0.json"⟩
  , ⟨1, "SenseBox 1", (51.25234545733288, 7.128517708781204), "sensebox1.json"⟩
  , ⟨2, "SenseBox 2", (51.25247128668728, 7.128386842825138), "sensebox2.json"⟩
  , ⟨3, "SenseBox 3", (51.252534201235335, 7.1285670205907365), "sensebox3.json"⟩
  , ⟨4, "SenseBox 4", (51.2523240900498, 7.1288515117995805), "sensebox4.json"⟩ ]

/-- A fetched device: the spread `{ ...box, readings }` built in
`fetchData`. -/
structure BoxData where
  box : Sensebox
  readings : List Reading
deriving DecidableEq, Repr

/-- JS `arr.slice(-w)` for a positive window size `w`: the last `w`
elements when the array has at least `w`, the whole array otherwise
(`SenseboxPopup` uses it only at `w = 20`). -/
def sliceLast (l : List α) (w : ℕ) : List α :=
  l.drop (l.length - w)

/-- `SenseboxPopup`: `hasData = box.readings && box.readings.length > 0`. -/
def hasData (b : BoxData) : Bool :=
  !b.readings.isEmpty

/-- `SenseboxPopup`: `latest = hasData ? box.readings[box.readings.length - 1] : null`. -/
def latestOf (b : BoxData) : Option Reading :=
  if hasData b then b.readings.getLast? else none

/-- `SenseboxPopup`: `history = hasData ? box.readings.slice(-20) : []`. -/
def historyOf (b : BoxData) : List Reading :=
  if hasData b then sliceLast b.readings 20 else []

/-- What the popup renders: the data branch (latest reading plus the
history window fed to the four charts), or the
`Keine Daten verfügbar.` marker rendered when `latest` is null. -/
inductive PopupRender where
  | content (latestReading : Reading) (history : List Reading)
  | noData
deriving DecidableEq, Repr

/-- The branch `SenseboxPopup` takes: `latest ? (...) : (Keine Daten
verfügbar.)`. A total function — rendering never throws. -/
def popupRender (b : BoxData) : PopupRender :=
  match latestOf b with
  | some r => .content r (historyOf b)
  | none => .noData

/-- C2: the window has length `min L w`, it is a suffix of the series
(the last elements in original order, oldest first), a series shorter
than the window is returned whole, and the popup's history is exactly
this projection at window 20. -/
theorem sliceLast_window_bound (series : List Reading) (w : ℕ) :
    (sliceLast series w).length = min series.length w
    ∧ series.take (series.length - w) ++ sliceLast series w = series
    ∧ (series.length ≤ w → sliceLast series w = series)
    ∧ ∀ b : BoxData, historyOf b = sliceLast b.readings 20 := by
  refine ⟨?_, ?_, ?_, ?_⟩
  · simp [sliceLast]
    omega
  · simp [sliceLast]
  · intro h
    simp [sliceLast, Nat.sub_eq_zero_of_le h]
  · intro b
    cases hb : b.readings with
    | nil => simp [historyOf, hasData, sliceLast, hb]
    | cons x xs => simp [historyOf, hasData, sliceLast, hb]

/-- Witness for C2 at a concrete three-reading series and window 2. -/
theorem sliceLast_window_bound_witness :
    (sliceLast ([⟨"a", 1, 2, 3, 4⟩, ⟨"b", 5, 6, 7, 8⟩, ⟨"c", 9, 10, 11, 12⟩] :
        List Reading) 2).length = min 3 2 := by
  have h := sliceLast_window_bound
    ([⟨"a", 1, 2, 3, 4⟩, ⟨"b", 5, 6, 7, 8⟩, ⟨"c", 9, 10, 11, 12⟩] : List Reading) 2
  exact h.1

/-- C5: a device with an empty reading series renders as the explicit
no-data marker: `latest` is null, the history window is empty, and the
popup takes the `Keine Daten verfügbar.` branch (a total function — no
exception path exists). -/
theorem empty_readings_no_data (b : BoxData) (h : b.readings = []) :
    latestOf b = none ∧ historyOf b = [] ∧ popupRender b = .noData := by
  have hd : hasData b = false := by simp [hasData, h]
  refine ⟨?_, ?_, ?_⟩
  · simp [latestOf, hd]
  · simp [historyOf, hd]
  · simp [popupRender, latestOf, hd]

/-- Witness for C5: SenseBox 0 with an empty series renders the no-data
marker. -/
theorem empty_readings_no_data_witness :
    popupRender ⟨⟨0, "SenseBox 0", (0, 0), "sensebox0.json"⟩, []⟩ = .noData :=
  (empty_readings_no_data ⟨⟨0, "SenseBox 0", (0, 0), "sensebox0.json"⟩, []⟩ rfl).2.2

/-- The reading field selected by the `valueKey` prop of a `LineChart`
(the popup instantiates it with the four field names). -/
inductive SensorField where
  | temperature
  | humidity
  | illu
  | light
deriving DecidableEq, Repr

/-- JS `entry[valueKey]`. -/
def fieldValue (r : Reading) : SensorField → ℚ
  | .temperature => r.temperature
  | .humidity => r.humidity
  | .illu => r.illu
  | .light => r.light

/-- The `valueKey` string itself, as interpolated into the gradient id. -/
def fieldKey : SensorField → String
  | .temperature => "temperature"
  | .humidity => "humidity"
  | .illu => "illu"
  | .light => "light"

/-- `LineChart`: `const width = 280`. -/
def chartWidth : ℚ := 280

/-- `LineChart`: `const height = 120`. -/
def chartHeight : ℚ := 120

/-- JS `Math.min(...values)` on a non-empty array (the chart returns early
on an empty one). -/
def jsMin : List ℚ → ℚ
  | [] => 0
  | v :: vs => vs.foldl min v

/-- JS `Math.max(...values)` on a non-empty array. -/
def jsMax : List ℚ → ℚ
  | [] => 0
  | v :: vs => vs.foldl max v

/-- `LineChart`: `range === 0 ? 0.5 : (value - minValue) / range` with
`range = maxValue - minValue`. -/
def normalizedVal (values : List ℚ) (v : ℚ) : ℚ :=
  if jsMax values - jsMin values = 0 then 1 / 2
  else (v - jsMin values) / (jsMax values - jsMin values)

/-- `LineChart`: `x = (index / Math.max(values.length - 1, 1)) * width`. -/
def pointX (n i : ℕ) : ℚ :=
  ((i : ℚ) / ((max (n - 1) 1 : ℕ) : ℚ)) * chartWidth

/-- `LineChart`: `y = height - normalized * height`. -/
def pointY (values : List ℚ) (v : ℚ) : ℚ :=
  chartHeight - normalizedVal values v * chartHeight

/-- The `points` array of the chart polyline: one `(x, y)` pair per value,
in index order. -/
def chartPoints (values : List ℚ) : List (ℚ × ℚ) :=
  values.enum.map fun p => (pointX values.length p.1, pointY values p.2)

/-- The record a `LineChart` renders. `gradientId` is
`gradient-${valueKey}-${<random suffix>}`; the suffix drawn from
`Math.random()` at instance creation is the `rand` parameter of
`lineChart`. -/
structure ChartRecord where
  gradientId : String
  points : List (ℚ × ℚ)
  minValue : ℚ
  maxValue : ℚ
  latestValue : ℚ
deriving DecidableEq, Repr

/-- `LineChart` as a function of its data, its `valueKey`, and the random
suffix its `useRef` captured: `null` on empty data, the rendered record
otherwise. -/
def lineChart (data : List Reading) (key : SensorField) (rand : String) :
    Option ChartRecord :=
  if data.isEmpty then none
  else
    let values := data.map (fieldValue · key)
    some
      { gradientId := "gradient-" ++ fieldKey key ++ "-" ++ rand
      , points := chartPoints values
      , minValue := jsMin values
      , maxValue := jsMax values
      , latestValue := values.getLastD 0 }

/-- Everything in a chart record except the random gradient id. -/
def ChartRecord.dataPart (c : ChartRecord) : List (ℚ × ℚ) × ℚ × ℚ × ℚ :=
  (c.points, c.minValue, c.maxValue, c.latestValue)

lemma foldl_min_le_foldl_max (vs : List ℚ) :
    ∀ v w : ℚ, v ≤ w → vs.foldl min v ≤ vs.foldl max w := by
  induction vs with
  | nil => intro v w h; simpa using h
  | cons a t ih =>
    intro v w h
    simpa using ih (min v a) (max w a)
      (le_trans (min_le_right v a) (le_max_right w a))

lemma jsMin_le_jsMax (values : List ℚ) (h : values ≠ []) :
    jsMin values ≤ jsMax values := by
  cases values with
  | nil => exact absurd rfl h
  | cons v vs => exact foldl_min_le_foldl_max vs v v le_rfl

/-- C3: the i-th plotted point is `(i / max(N-1,1) * width,
height - normalized * height)`; the normalized value is
`(v - min) / (max - min)` when `max > min` and `1/2` otherwise; a
single-element window normalizes to `1/2` regardless of the value; and in
Scenario A's two-reading series the min value normalizes to `0` and the
max value to `1`. -/
theorem chart_normalization (values : List ℚ) (hne : values ≠ [])
    (i : ℕ) (hi : i < values.length) :
    (chartPoints values)[i]? =
      some (((i : ℚ) / ((max (values.length - 1) 1 : ℕ) : ℚ)) * chartWidth,
        chartHeight - normalizedVal values values[i] * chartHeight)
    ∧ (jsMin values < jsMax values →
        normalizedVal values values[i]
          = (values[i] - jsMin values) / (jsMax values - jsMin values))
    ∧ (¬ jsMin values < jsMax values → normalizedVal values values[i] = 1 / 2)
    ∧ (∀ x : ℚ, normalizedVal [x] x = 1 / 2)
    ∧ normalizedVal [20, 22] 20 = 0
    ∧ normalizedVal [20, 22] 22 = 1 := by
  refine ⟨?_, ?_, ?_, ?_, ?_, ?_⟩
  · simp [chartPoints, List.getElem?_map, List.getElem?_enum,
      List.getElem?_eq_getElem hi, pointX, pointY]
  · intro h
    have hr : jsMax values - jsMin values ≠ 0 := sub_ne_zero.mpr (ne_of_gt h)
    simp [normalizedVal, hr]
  · intro h
    have heq : jsMax values = jsMin values :=
      le_antisymm (not_lt.mp h) (jsMin_le_jsMax values hne)
    simp [normalizedVal, heq]
  · intro x
    simp [normalizedVal, jsMin, jsMax]
  · norm_num [normalizedVal, jsMin, jsMax]
  · norm_num [normalizedVal, jsMin, jsMax]

/-- Witness for C3 at Scenario A's values `[20, 22]`, point 0. -/
theorem chart_normalization_witness :
    (chartPoints [20, 22])[0]? = some ((0 : ℚ), (120 : ℚ))
    ∧ normalizedVal [20, 22] 20 = 0 := by
  have h := chart_normalization [20, 22] (by decide) 0 (by decide)
  refine ⟨?_, h.2.2.2.2.1⟩
  rw [h.1]
  norm_num [chartWidth, chartHeight, normalizedVal, jsMin, jsMax]

/-- Data used in the C9 counterexample: two readings of one device. -/
def exChartData : List Reading :=
  [ ⟨"2024-01-01T10:00:00Z", 20, 50, 100, 1⟩
  , ⟨"2024-01-01T10:01:00Z", 22, 55, 120, 2⟩ ]

/-- Counterexample to C9 as stated: rendering the same series twice from
two chart instances (whose `useRef` captured different `Math.random()`
draws) does not yield identical output — the embedded gradient ids
differ. -/
theorem chart_render_not_reproducible :
    lineChart exChartData .temperature "abc0001"
      ≠ lineChart exChartData .temperature "xyz0002" := by
  intro h
  have h2 := congrArg (Option.map ChartRecord.gradientId) h
  simp [lineChart, exChartData, fieldKey] at h2

/-- C9 amended: the projection is pure and deterministic in the series —
every component of the rendered record except the random gradient id is a
function of the data and the field alone, identical across renders. -/
theorem chart_data_deterministic (data : List Reading) (key : SensorField)
    (r1 r2 : String) :
    (lineChart data key r1).map ChartRecord.dataPart
      = (lineChart data key r2).map ChartRecord.dataPart := by
  cases h : data.isEmpty <;> simp [lineChart, h, ChartRecord.dataPart]

/-- The outcome of one device's fetch in a cycle: a parsed JSON body; a
non-ok HTTP response — `fetchData` throws
`Fehler beim Laden von ${box.name}` for it; or any other rejection
(network failure, JSON parse error) carrying its own message. -/
inductive FetchOutcome where
  | success (readings : List Reading)
  | httpError
  | jsError (msg : String)
deriving DecidableEq, Repr

/-- The rejection message a device's fetch produces, if any. -/
def outcomeError (b : Sensebox) : FetchOutcome → Option String
  | .success _ => none
  | .httpError => some ("Fehler beim Laden von " ++ b.name)
  | .jsError m => some m

/-- The readings of a successful outcome (a failed fetch contributes no
result array; the branch is unreachable on the success path). -/
def FetchOutcome.readingsOrEmpty : FetchOutcome → List Reading
  | .success rs => rs
  | .httpError => []
  | .jsError _ => []

/-- The three `useState` slots of `App`: `boxes`, `loading`, `error`. -/
structure AppState where
  boxes : List BoxData
  loading : Bool
  error : Option String
deriving DecidableEq, Repr

/-- The initial render: `useState([])`, `useState(true)`, `useState(null)`. -/
def initialState : AppState := ⟨[], true, none⟩

/-- `Promise.all(SENSEBOXES.map(...))`: `out` gives each device's outcome
and `settleOrder` lists the devices in the order their promises settle.
`Promise.all` rejects with the reason of the first rejection in settlement
order; when no listed device fails it resolves with one
`{ ...box, readings }` per catalog device, in device order. -/
def runCycle (out : Sensebox → FetchOutcome) (settleOrder : List Sensebox) :
    Except String (List BoxData) :=
  match settleOrder.findSome? (fun b => outcomeError b (out b)) with
  | some m => .error m
  | none => .ok (SENSEBOXES.map fun b => ⟨b, (out b).readingsOrEmpty⟩)

/-- One invocation of `fetchData` (liveness flag still set): on
resolution, `setBoxes(results); setError(null); setLoading(false)`; on
rejection, `setError(err.message); setLoading(false)` and `boxes`
untouched. -/
def applyCycle (s : AppState) (out : Sensebox → FetchOutcome)
    (settleOrder : List Sensebox) : AppState :=
  match runCycle out settleOrder with
  | .ok results => { boxes := results, loading := false, error := none }
  | .error m => { s with loading := false, error := some m }

/-- One refresh cycle's inputs: the per-device outcomes and the
settlement order of their promises. -/
def CycleSpec := (Sensebox → FetchOutcome) × List Sensebox

/-- A run of consecutive refresh cycles. -/
def runCycles (s : AppState) (cs : List CycleSpec) : AppState :=
  cs.foldl (fun s' c => applyCycle s' c.1 c.2) s

/-- The failure messages observed in a cycle, in settlement order. -/
def observedFailures (out : Sensebox → FetchOutcome)
    (settleOrder : List Sensebox) : List String :=
  settleOrder.filterMap fun b => outcomeError b (out b)

/-- A cycle in which some fetch fails (its `Promise.all` rejects). -/
def cycleFails (c : CycleSpec) : Prop :=
  c.2.findSome? (fun b => outcomeError b (c.1 b)) ≠ none

/-- A cycle in which no fetch fails (its `Promise.all` resolves). -/
def cycleSucceeds (c : CycleSpec) : Prop :=
  c.2.findSome? (fun b => outcomeError b (c.1 b)) = none

/-- The result array of a fully-successful cycle, in device order. -/
def successResults (out : Sensebox → FetchOutcome) : List BoxData :=
  SENSEBOXES.map fun b => ⟨b, (out b).readingsOrEmpty⟩

/-- The markers `App` renders: one per entry of `boxes` (position, tooltip
name, popup). -/
def renderedMarkers (s : AppState) : List ((ℚ × ℚ) × String × PopupRender) :=
  s.boxes.map fun d => (d.box.position, d.box.name, popupRender d)

lemma findSome?_eq_head?_filterMap (f : α → Option β) (l : List α) :
    l.findSome? f = (l.filterMap f).head? := by
  induction l with
  | nil => rfl
  | cons a t ih =>
    cases h : f a with
    | none =>
      simp only [List.findSome?_cons, List.filterMap_cons, h]
      exact ih
    | some b =>
      simp only [List.findSome?_cons, List.filterMap_cons, h]
      rfl

/-- A reading used by the concrete cycle scenarios. -/
def exR0 : Reading := ⟨"2024-01-01T10:00:00Z", 20, 50, 100, 1⟩

/-- A fresher reading used by the concrete cycle scenarios. -/
def exR1 : Reading := ⟨"2024-01-01T10:01:00Z", 22, 55, 120, 2⟩

/-- A state left by an earlier successful cycle: every device holds the
one-reading series `[exR0]`. -/
def exPrevState : AppState :=
  ⟨SENSEBOXES.map fun b => ⟨b, [exR0]⟩, false, none⟩

/-- Scenario C's outcomes: device 0's response is HTTP 500 (non-ok),
every other device succeeds with the fresh series `[exR0, exR1]`. -/
def exOutOneFail : Sensebox → FetchOutcome := fun b =>
  if b.id = 0 then .httpError else .success [exR0, exR1]

/-- Counterexample to C1 as stated: in Scenario C's cycle (device 0 fails,
the other four succeed with fresh data), the published state retains the
OLD series for every device — including device 1, whose fetch succeeded
with a strictly newer series — because the single `Promise.all` rejects
and `setBoxes` is never called; only the status message is updated. -/
theorem partial_failure_discards_success :
    ((applyCycle exPrevState exOutOneFail SENSEBOXES).boxes.map BoxData.readings)
      = [[exR0], [exR0], [exR0], [exR0], [exR0]]
    ∧ (applyCycle exPrevState exOutOneFail SENSEBOXES).error
        = some "Fehler beim Laden von SenseBox 0"
    ∧ exOutOneFail SENSEBOXES[1] = .success [exR0, exR1]
    ∧ [exR0] ≠ [exR0, exR1] := by
  refine ⟨by decide, by decide, by decide, by decide⟩

/-- C1 amended: when any device's fetch fails, the published state
retains EVERY device's previous series unchanged (the successful fetches'
results are discarded with the rejected `Promise.all`), and the global
status becomes the first-observed failure's message. -/
theorem failed_cycle_retains_all (s : AppState)
    (out : Sensebox → FetchOutcome) (settleOrder : List Sensebox) (m : String)
    (h : settleOrder.findSome? (fun b => outcomeError b (out b)) = some m) :
    (applyCycle s out settleOrder).boxes = s.boxes
    ∧ (applyCycle s out settleOrder).error = some m
    ∧ (applyCycle s out settleOrder).loading = false := by
  simp [applyCycle, runCycle, h]

/-- Witness for the amended C1 at Scenario C's concrete cycle. -/
theorem failed_cycle_retains_all_witness :
    (applyCycle exPrevState exOutOneFail SENSEBOXES).boxes = exPrevState.boxes :=
  (failed_cycle_retains_all exPrevState exOutOneFail SENSEBOXES
    "Fehler beim Laden von SenseBox 0" (by decide)).1

/-- Outcomes in which two devices fail: device 0 with message
`Fehler A`, device 1 with message `Fehler B`, the rest succeed. -/
def exOutTwoFail : Sensebox → FetchOutcome := fun b =>
  if b.id = 0 then .jsError "Fehler A"
  else if b.id = 1 then .jsError "Fehler B"
  else .success [exR0, exR1]

/-- Counterexample to C6 as stated: with two failures settling in the
order `Fehler A`, then `Fehler B`, the published status is the FIRST
failure's message (`Promise.all` rejects with the first rejection), not
the last one's. -/
theorem first_failure_wins :
    observedFailures exOutTwoFail SENSEBOXES = ["Fehler A", "Fehler B"]
    ∧ (applyCycle exPrevState exOutTwoFail SENSEBOXES).error = some "Fehler A"
    ∧ "Fehler A" ≠ "Fehler B" := by
  refine ⟨by decide, by decide, by decide⟩

/-- C6 amended: when several devices fail in one cycle, the published
status message is that of the FIRST failure in settlement order, and the
choice is deterministic given a fixed settlement order (the transition is
a function of the outcomes and that order). -/
theorem status_is_first_failure (s : AppState)
    (out : Sensebox → FetchOutcome) (settleOrder : List Sensebox) (m : String)
    (h : (observedFailures out settleOrder).head? = some m) :
    (applyCycle s out settleOrder).error = some m := by
  have hf : settleOrder.findSome? (fun b => outcomeError b (out b)) = some m := by
    rw [findSome?_eq_head?_filterMap]
    exact h
  simp [applyCycle, runCycle, hf]

/-- Witness for the amended C6 at the two-failure cycle. -/
theorem status_is_first_failure_witness :
    (applyCycle exPrevState exOutTwoFail SENSEBOXES).error = some "Fehler A" :=
  status_is_first_failure exPrevState exOutTwoFail SENSEBOXES "Fehler A" (by decide)

lemma applyCycle_of_success (s : AppState) (out : Sensebox → FetchOutcome)
    (settleOrder : List Sensebox)
    (h : settleOrder.findSome? (fun b => outcomeError b (out b)) = none) :
    applyCycle s out settleOrder = ⟨successResults out, false, none⟩ := by
  simp [applyCycle, runCycle, h, successResults]

lemma runCycles_failing_keeps_error (cs : List CycleSpec) :
    ∀ s : AppState, s.error ≠ none → (∀ c ∈ cs, cycleFails c) →
      (runCycles s cs).error ≠ none := by
  induction cs with
  | nil =>
    intro s hs _
    simpa [runCycles] using hs
  | cons c t ih =>
    intro s hs hall
    have hc : cycleFails c := hall c (List.mem_cons_self c t)
    obtain ⟨m, hm⟩ := Option.ne_none_iff_exists'.mp hc
    have h1 : (applyCycle s c.1 c.2).error = some m := by
      simp [applyCycle, runCycle, hm]
    have h2 : (applyCycle s c.1 c.2).error ≠ none := by
      rw [h1]; exact Option.some_ne_none m
    have h3 := ih (applyCycle s c.1 c.2) h2
      (fun d hd => hall d (List.mem_cons_of_mem c hd))
    simpa [runCycles] using h3

/-- C8: from any state whose status is an error, the error survives every
further cycle in which some fetch fails, and the first cycle in which
every device's fetch succeeds clears it to no-error while publishing the
fresh results — the status clears exactly on the first fully-successful
cycle. -/
theorem error_clears_on_full_success (s : AppState) (e : String)
    (hs : s.error = some e) (cs : List CycleSpec)
    (hcs : ∀ c ∈ cs, cycleFails c) (suc : CycleSpec)
    (hsuc : cycleSucceeds suc) :
    (runCycles s cs).error ≠ none
    ∧ (applyCycle (runCycles s cs) suc.1 suc.2).error = none
    ∧ (applyCycle (runCycles s cs) suc.1 suc.2).boxes = successResults suc.1 := by
  have hne : s.error ≠ none := by rw [hs]; exact Option.some_ne_none e
  refine ⟨runCycles_failing_keeps_error cs s hne hcs, ?_, ?_⟩
  · rw [applyCycle_of_success _ _ _ hsuc]
  · rw [applyCycle_of_success _ _ _ hsuc]

/-- All-success outcomes: every device returns the fresh series. -/
def exOutAllOk : Sensebox → FetchOutcome := fun _ => .success [exR0, exR1]

/-- A state carrying the error left by a failed cycle. -/
def exErrState : AppState :=
  ⟨SENSEBOXES.map fun b => ⟨b, [exR0]⟩, false,
    some "Fehler beim Laden von SenseBox 0"⟩

/-- Witness for C8: one more failing cycle keeps an error status, and the
following all-success cycle clears it. -/
theorem error_clears_on_full_success_witness :
    (runCycles exErrState [(exOutOneFail, SENSEBOXES)]).error ≠ none
    ∧ (applyCycle (runCycles exErrState [(exOutOneFail, SENSEBOXES)])
        exOutAllOk SENSEBOXES).error = none := by
  have h := error_clears_on_full_success exErrState
    "Fehler beim Laden von SenseBox 0" rfl [(exOutOneFail, SENSEBOXES)]
    (by
      intro c hc
      rw [List.mem_singleton] at hc
      subst hc
      unfold cycleFails
      decide)
    (exOutAllOk, SENSEBOXES) (by unfold cycleSucceeds; decide)
  exact ⟨h.1, h.2.1⟩

lemma runCycles_loading_stays_false (cs : List CycleSpec) :
    ∀ s : AppState, s.loading = false → (runCycles s cs).loading = false := by
  induction cs with
  | nil =>
    intro s h
    simpa [runCycles] using h
  | cons c t ih =>
    intro s h
    have h2 : (applyCycle s c.1 c.2).loading = false := by
      unfold applyCycle
      cases runCycle c.1 c.2 <;> rfl
    simpa [runCycles] using ih (applyCycle s c.1 c.2) h2

/-- C10: the initial state is loading; every completed cycle — successful
or failed — leaves loading false; hence after any non-empty run of cycles
from the initial state, loading is false and never becomes true again
(no transition sets it back). -/
theorem loading_false_after_first_cycle :
    initialState.loading = true
    ∧ (∀ (s : AppState) (out : Sensebox → FetchOutcome)
        (settleOrder : List Sensebox),
        (applyCycle s out settleOrder).loading = false)
    ∧ (∀ cs : List CycleSpec, cs ≠ [] →
        (runCycles initialState cs).loading = false) := by
  refine ⟨rfl, ?_, ?_⟩
  · intro s out settleOrder
    unfold applyCycle
    cases runCycle out settleOrder <;> rfl
  · intro cs hcs
    cases cs with
    | nil => exact absurd rfl hcs
    | cons c t =>
      have h2 : (applyCycle initialState c.1 c.2).loading = false := by
        unfold applyCycle
        cases runCycle c.1 c.2 <;> rfl
      simpa [runCycles] using runCycles_loading_stays_false t _ h2

/-- Witness for C10: a first cycle in which every device fails already
ends the loading phase. -/
theorem loading_false_after_first_cycle_witness :
    (runCycles initialState [(fun _ => .jsError "Netzwerkfehler", SENSEBOXES)]).loading
      = false :=
  loading_false_after_first_cycle.2.2
    [(fun _ => .jsError "Netzwerkfehler", SENSEBOXES)] (by simp)

/-- Counterexample to C4 as stated: the initial state (`useState([])`) is
loading but its device list is EMPTY — it does not contain an entry for
any catalog device, in particular none for catalog entry `SenseBox 0`. -/
theorem initial_state_has_no_device_entries :
    initialState.loading = true
    ∧ initialState.boxes = []
    ∧ ¬ (∀ b ∈ SENSEBOXES, ∃ d ∈ initialState.boxes, d.box.id = b.id) := by
  refine ⟨rfl, rfl, ?_⟩
  intro h
  obtain ⟨d, hd, -⟩ := h
    ⟨0, "SenseBox 0", (51.25249146683472, 7.128714956019335), "sensebox0.json"⟩
    (by rw [SENSEBOXES]; exact List.mem_cons_self _ _)
  simp [initialState] at hd

/-- C4 amended: before any data has ever arrived the published state has
status Loading and an empty device list — consumers iterate the list (the
marker renderer maps over it, producing no markers) rather than looking
devices up, so no special-casing of a missing device occurs. -/
theorem initial_state_loading_and_empty :
    initialState.loading = true
    ∧ initialState.error = none
    ∧ initialState.boxes = []
    ∧ renderedMarkers initialState = [] :=
  ⟨rfl, rfl, rfl, rfl⟩

/-- The events `App`'s effect timeline sees: a `setInterval` tick (which
invokes `fetchData`), or the resolution of one in-flight `fetchData`
call's `Promise.all` barrier. -/
inductive TimerEvent where
  | tick
  | complete
deriving DecidableEq, Repr

/-- The number of `fetchData` cycles currently in flight. `setInterval`
invokes `fetchData` on every tick and `fetchData` begins its fetch
fan-out unconditionally — the effect keeps no in-flight flag, so a tick
always starts a new cycle; a barrier resolution ends one. -/
def stepInFlight (n : ℕ) : TimerEvent → ℕ
  | .tick => n + 1
  | .complete => n - 1

/-- In-flight cycles after a sequence of timeline events. -/
def inFlightAfter (events : List TimerEvent) : ℕ :=
  events.foldl stepInFlight 0

/-- Counterexample to C7 as stated: when the second tick fires before the
first cycle's barrier resolves, a second concurrent cycle starts — two
cycles' fetch phases are in flight at once. -/
theorem overlapping_cycles_possible :
    inFlightAfter [TimerEvent.tick, TimerEvent.tick] = 2 ∧ 1 < 2 := by
  refine ⟨rfl, by decide⟩

/-- C7 amended: a tick starts a new cycle UNCONDITIONALLY — even while
cycles are still in flight, the tick is neither deferred nor skipped, so
overlapping fetch phases are possible (each cycle still applies its own
merge atomically when its barrier resolves). -/
theorem tick_starts_cycle_unconditionally (n : ℕ) (h : 0 < n) :
    stepInFlight n TimerEvent.tick = n + 1 := by
  rfl

/-- Witness for the amended C7: with one cycle already in flight, a tick
makes it two. -/
theorem tick_starts_cycle_unconditionally_witness :
    stepInFlight 1 TimerEvent.tick = 2 :=
  tick_starts_cycle_unconditionally 1 (by decide)
